import Mathlib

/-!
Verification development for the `umm` grading engine.

The engine itself ships as a compiled extension module; the repository
excerpt contains its test-suite, an example driver and fixtures, plus a
specification of the engine.  The definitions below are therefore a shallow
embedding of the engine as the specification describes it: projects indexed
by logical name, a process-runner abstraction, a structural query engine,
the three grader variants with fluent configuration, and the GradeResult
serialization protocol.  Machine floats of the host language are modelled
as rationals; the lazily-parsed structural model of a source file is
modelled as its pre-order sequence of structural nodes.
-/

deriving instance DecidableEq for Except

namespace Umm

/-- Modelled from the spec: the unified error taxonomy of section 7
("ConfigError", "NotFound"/"TargetNotFound", "RuntimeUnavailable",
"CompileError", "Timeout", "ReportParseError"); the engine source that
declares these variants is not in the excerpt. -/
inductive UmmErr where
  | notFound (msg : String)
  | indexErr (msg : String)
  | configError (msg : String)
  | runtimeUnavailable (msg : String)
  | compileError (msg : String)
  | timeoutErr (msg : String)
  | reportParseError (msg : String)
deriving DecidableEq, Repr

/-- Modelled from the spec: one structural node of a parsed source file
(section 4.3 lists the predicate kinds the query engine understands). -/
inductive AstNode where
  | invoke (callee : String)
  | declNode (kind name : String)
  | literal (value : String)
  | loopNode
  | condNode
deriving DecidableEq, Repr

/-- Modelled from the spec: a SourceFile has a logical name, a path and a
lazily-parsed structural model (section 3); the model is embedded as the
pre-order list of its structural nodes. -/
structure SourceFile where
  logicalName : String
  path : String
  model : List AstNode
deriving DecidableEq, Repr

/-- Modelled from the spec: a Project owns a SourceIndex and is immutable
after construction (section 3). -/
structure Project where
  rootPath : String
  index : List SourceFile
deriving DecidableEq, Repr

/-- Modelled from the spec: one file of the directory tree walked by
`from_path`; the logical name is "derived from its package/namespace
declaration plus file name" (section 4.1). -/
structure FsEntry where
  path : String
  pkgDecl : String
  unitName : String
  model : List AstNode
deriving DecidableEq, Repr

/-- Modelled from the spec: the filesystem the engine walks; directories
that exist and the recognized source files beneath each path. -/
structure FileSystem where
  dirs : List String
  files : List FsEntry
deriving DecidableEq, Repr

def FsEntry.logicalName (e : FsEntry) : String :=
  if e.pkgDecl = "" then e.unitName else e.pkgDecl ++ "." ++ e.unitName

def FsEntry.toSourceFile (e : FsEntry) : SourceFile :=
  { logicalName := e.logicalName, path := e.path, model := e.model }

/-- Modelled from the spec: `from_path(root)` fails with a NotFound-class
error if root does not exist, otherwise walks the tree and indexes each
recognized source file by logical name. Index construction is tolerant:
files sharing a logical name are indexed as-is, and the duplicate failure
is deferred until a lookup requires them (section 4.1). -/
def Project.from_path (fs : FileSystem) (root : String) : Except UmmErr Project :=
  if fs.dirs.contains root then
    .ok { rootPath := root
          index := (fs.files.filter (fun e => root.data.isPrefixOf e.path.data)).map
            FsEntry.toSourceFile }
  else
    .error (.notFound ("Project root " ++ root ++ " does not exist"))

/-- Collapse a name list to its set of names, keeping first occurrences. -/
def dedupNames (seen : List String) : List String → List String
  | [] => []
  | n :: rest =>
      if n ∈ seen then dedupNames seen rest
      else n :: dedupNames (n :: seen) rest

/-- `file_names()` returns the full set of indexed logical names (set
semantics: duplicates collapsed, no ordering guarantee) (section 4.1). -/
def Project.file_names (p : Project) : List String :=
  dedupNames [] (p.index.map (·.logicalName))

/-- `lookup(name)` fails with NotFound if the name is absent, and surfaces
the deferred IndexError when the name is duplicated in the index
(section 4.1). -/
def Project.lookup (p : Project) (name : String) : Except UmmErr SourceFile :=
  match p.index.filter (fun f => f.logicalName == name) with
  | [] => .error (.notFound ("File " ++ name ++ " is not indexed"))
  | [f] => .ok f
  | _ :: _ :: _ => .error (.indexErr ("Duplicate logical name " ++ name ++ " in index"))

/-- Modelled from the spec: a located occurrence of a structural pattern
(section 3, QueryMatch). -/
structure QueryMatch where
  patternKind : String
  matchedName : String
  position : Nat
deriving DecidableEq, Repr

/-- Modelled from the spec: the structural predicates of section 4.3. -/
inductive QueryPredicate where
  | methodInvocationsWithName (name : String)
  | declarationWithName (kind name : String)
  | literalValueOccurrence (value : String)
  | andBoth (a b : QueryPredicate)
deriving DecidableEq, Repr

/-- Modelled from the spec: MatchPolicy, a quantifier over a sequence of
QueryMatch, evaluated deterministically against match count (section 3). -/
inductive MatchPolicy where
  | atLeastOne
  | exactlyN (n : Nat)
  | noneOf
deriving DecidableEq, Repr

def MatchPolicy.satisfied : MatchPolicy → Nat → Bool
  | .atLeastOne, k => k != 0
  | .exactlyN n, k => k == n
  | .noneOf, k => k == 0

/-- Modelled from the spec: `matches(file, predicate)` walks the parsed
model and returns the QueryMatch list in pre-order source position; the
AND combinator intersects on match identity (same source position)
(section 4.3). -/
def QueryEngine.matches (model : List AstNode) : QueryPredicate → List QueryMatch
  | .methodInvocationsWithName n =>
      model.enum.filterMap fun pair =>
        match pair.2 with
        | .invoke c => if c == n then some ⟨"method-invocation", c, pair.1⟩ else none
        | _ => none
  | .declarationWithName k n =>
      model.enum.filterMap fun pair =>
        match pair.2 with
        | .declNode dk dn =>
            if dk == k && dn == n then some ⟨"declaration", dn, pair.1⟩ else none
        | _ => none
  | .literalValueOccurrence v =>
      model.enum.filterMap fun pair =>
        match pair.2 with
        | .literal w => if w == v then some ⟨"literal", w, pair.1⟩ else none
        | _ => none
  | .andBoth a b =>
      (QueryEngine.matches model a).filter fun m =>
        (QueryEngine.matches model b).any (fun m2 => m2.position == m.position)

/-- Modelled from the spec: ExecutionResult of a single subprocess run
(section 3): captured stdout, stderr, exit code, elapsed time and a
truncation flag. -/
structure ExecutionResult where
  stdout : String
  stderr : String
  exitCode : Int
  elapsedMillis : Nat
  truncated : Bool
deriving DecidableEq, Repr

/-- Modelled from the spec: the host environment seen by ProcessRunner
(section 4.2) — whether the toolchain can be located, whether compilation
succeeds (with its diagnostics), and the deterministic behaviour of the
program under test: entry point and stdin determine the captured result. -/
structure Runtime where
  toolchainAvailable : Bool
  compileOk : Bool
  compileDiagnostics : String
  exec : String → String → ExecutionResult

/-- Modelled from the spec: ProcessRunner compiles then executes an entry
point; fails with RuntimeUnavailable if the toolchain cannot be located
and with CompileError if compilation fails (section 4.2). -/
def ProcessRunner.runEntry (rt : Runtime) (entry stdin : String) :
    Except UmmErr ExecutionResult :=
  if rt.toolchainAvailable then
    if rt.compileOk then .ok (rt.exec entry stdin)
    else .error (.compileError rt.compileDiagnostics)
  else
    .error (.runtimeUnavailable "The required toolchain could not be located on the host")

/-- One role/content feedback message of a prompt transcript. -/
structure Message where
  role : String
  content : String
deriving DecidableEq, Repr

/-- Modelled from the spec: GradeResult, the sole externally visible output
of any grader (section 3). -/
structure GradeResult where
  grade : Rat
  out_of : Rat
  req_name : String
  reason : String
  prompt : Option (List Message)
deriving DecidableEq, Repr

/-- The JSON-like external form GradeResult serializes to (section 6). -/
inductive Json where
  | num (q : Rat)
  | str (s : String)
  | arr (elems : List Json)
  | obj (fields : List (String × Json))
deriving Repr

def Json.getField (name : String) : Json → Option Json
  | .obj fields => (fields.find? (fun f => f.1 == name)).map (·.2)
  | _ => none

def Message.toJson (m : Message) : Json :=
  .obj [("role", .str m.role), ("content", .str m.content)]

/-- Modelled from the spec: the serialized record of section 6 — `grade`,
`out_of`, `reason`, and an optional `prompt` array of role/content
message objects. -/
def GradeResult.serialize (r : GradeResult) : Json :=
  .obj ([("grade", .num r.grade), ("out_of", .num r.out_of), ("reason", .str r.reason)] ++
    (match r.prompt with
     | none => []
     | some msgs => [("prompt", .arr (msgs.map Message.toJson))]))

/-- "hay contains the text needle" as substring containment. -/
def containsText (needle hay : String) : Prop :=
  ∃ a b, hay = a ++ (needle ++ b)

/-- `run()` fails if a required configuration field is unset (section 3). -/
def requiredField (fieldName : String) : Option α → Except UmmErr α
  | some a => .ok a
  | none => .error (.configError ("Required field " ++ fieldName ++ " is unset"))

/-- A host-language value handed to the duck-typed `cases()` setter. -/
inductive PyValue where
  | pyStr (s : String)
  | pyInt (n : Int)
  | pySeq (items : List PyValue)

/-- The diagnostic used when `cases()` is given malformed input. -/
def badCasesMsg : String := "Expected an iterable" ++ " of (input, expected) pairs"

/-- Modelled from the spec: `cases()` validation — anything not
decomposable into a two-element (input, expected) pair is rejected with a
ConfigError at configuration time (section 4.4). -/
def decomposePair : PyValue → Except UmmErr (String × String)
  | .pySeq [.pyStr a, .pyStr b] => .ok (a, b)
  | _ => .error (.configError badCasesMsg)

def decomposeAll : List PyValue → Except UmmErr (List (String × String))
  | [] => .ok []
  | v :: rest =>
      match decomposePair v with
      | .error e => .error e
      | .ok p =>
          match decomposeAll rest with
          | .error e => .error e
          | .ok ps => .ok (p :: ps)

def foldCase (applyFold : Bool) (s : String) : String :=
  if applyFold then ⟨s.data.map Char.toLower⟩ else s

/-- The expected value must be a literal prefix of the actual output
(section 4.4). -/
def prefixMatches (expected actual : String) : Bool :=
  expected.data.isPrefixOf actual.data

/-- Whether one diff case passes: expected is a literal prefix of the
captured stdout, modulo case folding when the flag is set (section 4.4). -/
def diffCasePasses (rt : Runtime) (entry : String) (ic : Bool) (c : String × String) : Bool :=
  prefixMatches (foldCase ic c.2) (foldCase ic (rt.exec entry c.1).stdout)

/-- Modelled from the spec: DiffGrader state (section 4.4). -/
structure DiffGrader where
  project? : Option Project := none
  file? : Option String := none
  req_name? : Option String := none
  out_of? : Option Rat := none
  ignore_case? : Bool := false
  cases? : Option (List (String × String)) := none
deriving DecidableEq, Repr

def DiffGrader.project (g : DiffGrader) (p : Project) : DiffGrader :=
  { g with project? := some p }

def DiffGrader.file (g : DiffGrader) (name : String) : DiffGrader :=
  { g with file? := some name }

def DiffGrader.req_name (g : DiffGrader) (s : String) : DiffGrader :=
  { g with req_name? := some s }

def DiffGrader.out_of (g : DiffGrader) (x : Rat) : DiffGrader :=
  { g with out_of? := some x }

def DiffGrader.ignore_case (g : DiffGrader) (b : Bool) : DiffGrader :=
  { g with ignore_case? := b }

def DiffGrader.cases (g : DiffGrader) (xs : List PyValue) : Except UmmErr DiffGrader :=
  match decomposeAll xs with
  | .ok ps => .ok { g with cases? := some ps }
  | .error e => .error e

/-- Modelled from the spec: DiffGrader `run()` (section 4.4) — compiles
and executes each case, compares via prefix containment with optional case
folding, and scores out_of times the ratio of passing cases. -/
def DiffGrader.run (g : DiffGrader) (rt : Runtime) : Except UmmErr GradeResult := do
  let _p ← requiredField "project" g.project?
  let entry ← requiredField "file" g.file?
  let req ← requiredField "req_name" g.req_name?
  let outOf ← requiredField "out_of" g.out_of?
  let cs ← requiredField "cases" g.cases?
  if rt.toolchainAvailable then
    if rt.compileOk then
      let passed := cs.countP (diffCasePasses rt entry g.ignore_case?)
      .ok { grade := outOf * passed / cs.length, out_of := outOf, req_name := req,
            reason := "", prompt := none }
    else .error (.compileError rt.compileDiagnostics)
  else .error (.runtimeUnavailable "The required toolchain could not be located on the host")

/-- Modelled from the spec: ByUnitTestGrader state (section 4.5). -/
structure ByUnitTestGrader where
  project? : Option Project := none
  test_files? : Option (List String) := none
  expected_tests? : Option (List String) := none
  req_name? : Option String := none
  out_of? : Option Rat := none
deriving DecidableEq, Repr

def ByUnitTestGrader.project (g : ByUnitTestGrader) (p : Project) : ByUnitTestGrader :=
  { g with project? := some p }

def ByUnitTestGrader.test_files (g : ByUnitTestGrader) (ts : List String) : ByUnitTestGrader :=
  { g with test_files? := some ts }

def ByUnitTestGrader.expected_tests (g : ByUnitTestGrader) (ts : List String) : ByUnitTestGrader :=
  { g with expected_tests? := some ts }

def ByUnitTestGrader.req_name (g : ByUnitTestGrader) (s : String) : ByUnitTestGrader :=
  { g with req_name? := some s }

def ByUnitTestGrader.out_of (g : ByUnitTestGrader) (x : Rat) : ByUnitTestGrader :=
  { g with out_of? := some x }

def parseReportLine (l : String) : Option (String × Bool) :=
  if l.data.take 5 = "PASS ".data then some (⟨l.data.drop 5⟩, true)
  else if l.data.take 5 = "FAIL ".data then some (⟨l.data.drop 5⟩, false)
  else none

/-- Modelled from the spec: parsing the test-report output into a set of
(test name, pass/fail) entries (section 4.5). -/
def parseReport (out : String) : Option (List (String × Bool)) :=
  ((out.data.splitOn '\n').map (fun l => String.mk l)
    |>.filter (fun l => l ≠ "")).mapM parseReportLine

/-- Modelled from the spec: ByUnitTestGrader `run()` (section 4.5) —
executes the named suites, parses the report, restricts scoring to the
expected-test list when supplied (a listed test absent from the report
counts as failed), scores proportional to passed/total, and degrades an
unparsable report to a zero grade with the raw output in the reason. -/
def ByUnitTestGrader.run (g : ByUnitTestGrader) (rt : Runtime) : Except UmmErr GradeResult := do
  let _p ← requiredField "project" g.project?
  let tfs ← requiredField "test_files" g.test_files?
  let req ← requiredField "req_name" g.req_name?
  let outOf ← requiredField "out_of" g.out_of?
  match ProcessRunner.runEntry rt (String.intercalate " " tfs) "" with
  | .error e => .error e
  | .ok res =>
      match parseReport res.stdout with
      | none =>
          .ok { grade := 0, out_of := outOf, req_name := req,
                reason := "Could not parse test report: " ++ res.stdout, prompt := none }
      | some entries =>
          let scored :=
            match g.expected_tests? with
            | none => entries
            | some exp =>
                exp.map fun t =>
                  (t, ((entries.find? (fun (e : String × Bool) => e.1 == t)).map
                        (fun (e : String × Bool) => e.2)).getD false)
          let passed := scored.countP (fun (e : String × Bool) => e.2)
          .ok { grade := outOf * passed / scored.length, out_of := outOf, req_name := req,
                reason := "", prompt := none }

/-- Modelled from the spec: QueryGrader state (section 4.6). -/
structure QueryGrader where
  project? : Option Project := none
  file? : Option String := none
  req_name? : Option String := none
  out_of? : Option Rat := none
  reason? : Option String := none
  predicate? : Option QueryPredicate := none
  policy? : Option MatchPolicy := none
deriving DecidableEq, Repr

def QueryGrader.project (g : QueryGrader) (p : Project) : QueryGrader :=
  { g with project? := some p }

def QueryGrader.file (g : QueryGrader) (name : String) : QueryGrader :=
  { g with file? := some name }

def QueryGrader.req_name (g : QueryGrader) (s : String) : QueryGrader :=
  { g with req_name? := some s }

def QueryGrader.out_of (g : QueryGrader) (x : Rat) : QueryGrader :=
  { g with out_of? := some x }

def QueryGrader.reason (g : QueryGrader) (s : String) : QueryGrader :=
  { g with reason? := some s }

def QueryGrader.method_invocations_with_name (g : QueryGrader) (s : String) : QueryGrader :=
  { g with predicate? := some (.methodInvocationsWithName s) }

def QueryGrader.must_match_at_least_once (g : QueryGrader) : QueryGrader :=
  { g with policy? := some .atLeastOne }

def QueryGrader.must_match_exactly_n (g : QueryGrader) (n : Nat) : QueryGrader :=
  { g with policy? := some (.exactlyN n) }

def QueryGrader.must_not_match (g : QueryGrader) : QueryGrader :=
  { g with policy? := some .noneOf }

/-- Modelled from the spec: QueryGrader `run()` (section 4.6) — a missing
target file degrades to a zero-grade result whose reason and prompt
transcript state that the file could not be found; otherwise the predicate
is evaluated and the grade is out_of exactly when the policy is satisfied
by the match set, else 0. -/
def QueryGrader.run (g : QueryGrader) : Except UmmErr GradeResult := do
  let p ← requiredField "project" g.project?
  let file ← requiredField "file" g.file?
  let req ← requiredField "req_name" g.req_name?
  let outOf ← requiredField "out_of" g.out_of?
  let pred ← requiredField "predicate" g.predicate?
  let pol ← requiredField "policy" g.policy?
  match p.lookup file with
  | .error _ =>
      let msg := "File " ++ file ++ " " ++ "could not be found" ++ " in the project"
      .ok { grade := 0, out_of := outOf, req_name := req, reason := msg,
            prompt := some [⟨"system", "Provide feedback on the student submission"⟩,
                            ⟨"user", msg⟩] }
  | .ok sf =>
      let ms := QueryEngine.matches sf.model pred
      if pol.satisfied ms.length then
        .ok { grade := outOf, out_of := outOf, req_name := req,
              reason := g.reason?.getD "", prompt := none }
      else
        .ok { grade := 0, out_of := outOf, req_name := req,
              reason := g.reason?.getD "", prompt := none }

/-- Modelled from the spec: the public surface of the binding module — the
five core names exercised by the test-suite plus the two error types the
example driver imports directly from the module. -/
def moduleExports : List String :=
  ["Project", "DiffGrader", "ByUnitTestGrader", "QueryGrader", "GradeResult",
   "UmmError", "UmmRuntimeError"]

/-- A grader configuration abstracted over the Project it will run
against, used to state run-to-run determinism. -/
inductive GraderSpec where
  | diffSpec (file req : String) (outOf : Rat) (ic : Bool) (cs : List (String × String))
  | unitTestSpec (tfs : List String) (expected : Option (List String)) (req : String) (outOf : Rat)
  | querySpec (file req rsn : String) (outOf : Rat) (pred : QueryPredicate) (pol : MatchPolicy)
deriving Repr

def runSpec (s : GraderSpec) (p : Project) (rt : Runtime) : Except UmmErr GradeResult :=
  match s with
  | .diffSpec f req o ic cs =>
      DiffGrader.run
        { project? := some p, file? := some f, req_name? := some req,
          out_of? := some o, ignore_case? := ic, cases? := some cs } rt
  | .unitTestSpec tfs exp req o =>
      ByUnitTestGrader.run
        { project? := some p, test_files? := some tfs, expected_tests? := exp,
          req_name? := some req, out_of? := some o } rt
  | .querySpec f req rsn o pred pol =>
      QueryGrader.run
        { project? := some p, file? := some f, req_name? := some req,
          out_of? := some o, reason? := some rsn, predicate? := some pred,
          policy? := some pol }

/-- A small concrete fixture mirroring the arraylist example project: a
main class and an ArrayList class whose source invokes `clear`. -/
def demoFs : FileSystem :=
  { dirs := ["/proj"]
    files :=
      [ { path := "/proj/Application/Main.java", pkgDecl := "Application", unitName := "Main",
          model := [.declNode "class" "Main", .invoke "println"] },
        { path := "/proj/DataStructures/ArrayList.java", pkgDecl := "DataStructures",
          unitName := "ArrayList",
          model := [.declNode "class" "ArrayList", .declNode "method" "clear",
                    .invoke "clear", .invoke "add"] } ] }

/-- The Project that `from_path` builds from the demo filesystem. -/
def demoProject : Project :=
  { rootPath := "/proj"
    index := (demoFs.files.filter
      (fun e => "/proj".data.isPrefixOf e.path.data)).map FsEntry.toSourceFile }

/-- A filesystem whose tree registers two distinct source files under the
same logical name Tools.Util. -/
def dupFs : FileSystem :=
  { dirs := ["/dup"]
    files :=
      [ { path := "/dup/a/Util.java", pkgDecl := "Tools", unitName := "Util",
          model := [.declNode "class" "Util"] },
        { path := "/dup/b/Util.java", pkgDecl := "Tools", unitName := "Util",
          model := [.declNode "class" "Util", .invoke "main"] } ] }

/-- The Project that `from_path` (tolerantly) builds from the duplicate
filesystem. -/
def dupProject : Project :=
  { rootPath := "/dup"
    index := (dupFs.files.filter
      (fun e => "/dup".data.isPrefixOf e.path.data)).map FsEntry.toSourceFile }

/-- The SourceFile the demo project indexes under DataStructures.ArrayList. -/
def demoArrayListFile : SourceFile :=
  { logicalName := "DataStructures.ArrayList"
    path := "/proj/DataStructures/ArrayList.java"
    model := [.declNode "class" "ArrayList", .declNode "method" "clear",
              .invoke "clear", .invoke "add"] }

/-- A deterministic host runtime for the demo project: the toolchain is
present, compilation succeeds, and the program prints a fixed banner. -/
def demoRuntime : Runtime :=
  { toolchainAvailable := true
    compileOk := true
    compileDiagnostics := ""
    exec := fun _entry _stdin =>
      { stdout := "===== INITIAL EMPTY LIST =====\nList: []", stderr := "",
        exitCode := 0, elapsedMillis := 5, truncated := false } }

/-- A host runtime on which the toolchain cannot be located. -/
def bareRuntime : Runtime :=
  { toolchainAvailable := false
    compileOk := false
    compileDiagnostics := ""
    exec := fun _ _ =>
      { stdout := "", stderr := "", exitCode := 0, elapsedMillis := 0, truncated := false } }

theorem mem_dedupNames (l : List String) : ∀ (seen : List String) (n : String),
    n ∈ dedupNames seen l ↔ (n ∈ l ∧ n ∉ seen) := by
  induction l with
  | nil => intro seen n; simp [dedupNames]
  | cons m rest ih =>
    intro seen n
    by_cases hm : m ∈ seen
    · rw [dedupNames, if_pos hm, ih]
      constructor
      · rintro ⟨hn, hns⟩
        exact ⟨List.mem_cons_of_mem _ hn, hns⟩
      · rintro ⟨hn, hns⟩
        rcases List.mem_cons.mp hn with rfl | hn2
        · exact absurd hm hns
        · exact ⟨hn2, hns⟩
    · rw [dedupNames, if_neg hm]
      simp only [List.mem_cons, ih]
      constructor
      · rintro (rfl | ⟨hn, hns⟩)
        · exact ⟨Or.inl rfl, hm⟩
        · exact ⟨Or.inr hn, fun hs => hns (Or.inr hs)⟩
      · rintro ⟨hn, hns⟩
        by_cases hnm : n = m
        · exact Or.inl hnm
        · rcases hn with rfl | hn2
          · exact Or.inl rfl
          · exact Or.inr ⟨hn2, fun hs => hs.elim hnm hns⟩

theorem dedupNames_nodup (l : List String) : ∀ seen, (dedupNames seen l).Nodup := by
  induction l with
  | nil => intro seen; simp [dedupNames]
  | cons m rest ih =>
    intro seen
    by_cases hm : m ∈ seen
    · rw [dedupNames, if_pos hm]
      exact ih seen
    · rw [dedupNames, if_neg hm]
      refine List.nodup_cons.mpr ⟨fun hmem => ?_, ih _⟩
      exact ((mem_dedupNames rest (m :: seen) m).mp hmem).2 (List.mem_cons_self _ _)

theorem mem_file_names_iff (p : Project) (n : String) :
    n ∈ p.file_names ↔ n ∈ p.index.map SourceFile.logicalName := by
  rw [Project.file_names, mem_dedupNames]
  simp

theorem filter_name_single (l : List SourceFile) (n : String)
    (hnodup : (l.map SourceFile.logicalName).Nodup)
    (hmem : n ∈ l.map SourceFile.logicalName) :
    ∃ f, l.filter (fun f => f.logicalName == n) = [f] ∧ f.logicalName = n := by
  induction l with
  | nil => simp at hmem
  | cons g rest ih =>
    simp only [List.map_cons, List.nodup_cons] at hnodup
    rcases hnodup with ⟨hg, hrest⟩
    by_cases hgn : g.logicalName = n
    · subst hgn
      have hfilter : rest.filter (fun f => f.logicalName == g.logicalName) = [] := by
        apply List.filter_eq_nil_iff.mpr
        intro f hf
        simp only [beq_iff_eq]
        intro hEq
        exact hg (List.mem_map.mpr ⟨f, hf, hEq⟩)
      exact ⟨g, by simp [List.filter_cons, hfilter], rfl⟩
    · have hmem2 : n ∈ rest.map SourceFile.logicalName := by
        simp only [List.map_cons, List.mem_cons] at hmem
        rcases hmem with heq | h2
        · exact absurd heq.symm hgn
        · exact h2
      rcases ih hrest hmem2 with ⟨f, hf, hfn⟩
      exact ⟨f, by simp [List.filter_cons, hgn, hf], hfn⟩

theorem lookup_ok_of_unique_mem (p : Project) (n : String)
    (hnodup : (p.index.map SourceFile.logicalName).Nodup)
    (h : n ∈ p.file_names) :
    ∃ f, p.lookup n = .ok f := by
  have hmem := (mem_file_names_iff p n).mp h
  rcases filter_name_single p.index n hnodup hmem with ⟨f, hf, _⟩
  exact ⟨f, by simp [Project.lookup, hf]⟩

theorem lookup_notFound_of_not_mem (p : Project) (n : String) (h : n ∉ p.file_names) :
    p.lookup n = .error (.notFound ("File " ++ n ++ " is not indexed")) := by
  have hnil : p.index.filter (fun f => f.logicalName == n) = [] := by
    apply List.filter_eq_nil_iff.mpr
    intro f hf
    simp only [beq_iff_eq]
    intro hEq
    exact h ((mem_file_names_iff p n).mpr (List.mem_map.mpr ⟨f, hf, hEq⟩))
  simp [Project.lookup, hnil]

theorem decomposePair_of_not_pair (v : PyValue)
    (h : ∀ a b, v ≠ .pySeq [.pyStr a, .pyStr b]) :
    decomposePair v = .error (.configError badCasesMsg) := by
  match v with
  | .pyStr _ => rfl
  | .pyInt _ => rfl
  | .pySeq [] => rfl
  | .pySeq [.pyStr _] => rfl
  | .pySeq [.pyInt _] => rfl
  | .pySeq [.pySeq _] => rfl
  | .pySeq [.pyStr a, .pyStr b] => exact absurd rfl (h a b)
  | .pySeq [.pyStr _, .pyInt _] => rfl
  | .pySeq [.pyStr _, .pySeq _] => rfl
  | .pySeq [.pyInt _, _] => rfl
  | .pySeq [.pySeq _, _] => rfl
  | .pySeq (.pyStr _ :: .pyStr _ :: _ :: _) => rfl
  | .pySeq (.pyStr _ :: .pyInt _ :: _ :: _) => rfl
  | .pySeq (.pyStr _ :: .pySeq _ :: _ :: _) => rfl
  | .pySeq (.pyInt _ :: _ :: _ :: _) => rfl
  | .pySeq (.pySeq _ :: _ :: _ :: _) => rfl

theorem decomposeAll_error (xs : List PyValue)
    (h : ∃ v ∈ xs, ∀ a b, v ≠ PyValue.pySeq [.pyStr a, .pyStr b]) :
    decomposeAll xs = .error (.configError badCasesMsg) := by
  induction xs with
  | nil => simp at h
  | cons v rest ih =>
    rcases h with ⟨w, hw, hshape⟩
    rcases List.mem_cons.mp hw with rfl | hmem
    · simp [decomposeAll, decomposePair_of_not_pair w hshape]
    · by_cases hv : ∀ a b, v ≠ PyValue.pySeq [.pyStr a, .pyStr b]
      · simp [decomposeAll, decomposePair_of_not_pair v hv]
      · push_neg at hv
        rcases hv with ⟨a, b, rfl⟩
        simp [decomposeAll, decomposePair, ih ⟨w, hmem, hshape⟩]

theorem decomposeAll_pairs (ps : List (String × String)) :
    decomposeAll (ps.map fun pr => PyValue.pySeq [.pyStr pr.1, .pyStr pr.2]) = .ok ps := by
  induction ps with
  | nil => rfl
  | cons p rest ih => simp [decomposeAll, decomposePair, ih]

theorem containsText_badCasesMsg : containsText "Expected an iterable" badCasesMsg :=
  ⟨"", " of (input, expected) pairs", by decide⟩

/-- Claim C1: for every QueryGrader configured with a project, a target
logical name absent from that project, a req_name, a positive out_of, a
predicate and a match policy, run() returns (does not raise) a GradeResult
with grade 0 and a non-empty prompt transcript in which at least one
message's content contains the text "could not be found". -/
theorem query_grader_missing_file_prompt (p : Project) (file req rsn : String)
    (outOf : Rat) (pred : QueryPredicate) (pol : MatchPolicy)
    (habs : file ∉ p.file_names) (hpos : 0 < outOf) :
    ∃ r : GradeResult,
      QueryGrader.run
        { project? := some p, file? := some file, req_name? := some req,
          out_of? := some outOf, reason? := some rsn, predicate? := some pred,
          policy? := some pol } = .ok r ∧
      r.grade = 0 ∧
      ∃ msgs, r.prompt = some msgs ∧ msgs ≠ [] ∧
        ∃ m ∈ msgs, containsText "could not be found" m.content := by
  have hlk := lookup_notFound_of_not_mem p file habs
  refine ⟨{ grade := 0, out_of := outOf, req_name := req,
            reason := "File " ++ file ++ " " ++ "could not be found" ++ " in the project",
            prompt := some [⟨"system", "Provide feedback on the student submission"⟩,
                            ⟨"user", "File " ++ file ++ " " ++ "could not be found" ++
                              " in the project"⟩] }, ?_, rfl, ?_⟩
  · simp only [QueryGrader.run, requiredField, bind, Except.bind, hlk]
  · refine ⟨_, rfl, by simp, ?_⟩
    refine ⟨⟨"user", "File " ++ file ++ " " ++ "could not be found" ++ " in the project"⟩,
      by simp, ?_⟩
    exact ⟨"File " ++ file ++ " ", " in the project", String.append_assoc _ _ _⟩

/-- Claim C1 witness: the demo project has no file "Missing", and the
missing-file run degrades as claimed. -/
theorem query_grader_missing_file_prompt_witness :
    ("Missing" ∉ demoProject.file_names ∧ (0 : Rat) < 1) ∧
    (∃ r : GradeResult,
      QueryGrader.run
        { project? := some demoProject, file? := some "Missing",
          req_name? := some "missing file", out_of? := some 1, reason? := some "r",
          predicate? := some (.methodInvocationsWithName "clear"),
          policy? := some .atLeastOne } = .ok r ∧
      r.grade = 0 ∧
      ∃ msgs, r.prompt = some msgs ∧ msgs ≠ [] ∧
        ∃ m ∈ msgs, containsText "could not be found" m.content) :=
  ⟨⟨by decide, by norm_num⟩,
    query_grader_missing_file_prompt demoProject "Missing" "missing file" "r" 1
      (.methodInvocationsWithName "clear") .atLeastOne (by decide) (by norm_num)⟩

/-- Claim C3: for every DiffGrader, calling .cases(xs) where some element
of xs is not decomposable into a two-element (input, expected) pair fails
at configuration time — the setter itself, which takes no runtime and
spawns no subprocess — with a ConfigError whose message contains
"Expected an iterable". -/
theorem diff_grader_cases_rejects_non_pairs (g : DiffGrader) (xs : List PyValue)
    (hbad : ∃ v ∈ xs, ∀ a b, v ≠ PyValue.pySeq [.pyStr a, .pyStr b]) :
    ∃ msg, g.cases xs = .error (.configError msg) ∧
      containsText "Expected an iterable" msg := by
  refine ⟨badCasesMsg, ?_, containsText_badCasesMsg⟩
  simp [DiffGrader.cases, decomposeAll_error xs hbad]

/-- Claim C3 witness: the test-suite's literal scenario — a single string
element is rejected with the "Expected an iterable" ConfigError. -/
theorem diff_grader_cases_rejects_non_pairs_witness :
    (∃ v ∈ [PyValue.pyStr "not-a-pair"],
        ∀ a b, v ≠ PyValue.pySeq [.pyStr a, .pyStr b]) ∧
    (∃ msg, DiffGrader.cases {} [PyValue.pyStr "not-a-pair"] = .error (.configError msg) ∧
      containsText "Expected an iterable" msg) :=
  ⟨⟨.pyStr "not-a-pair", by simp, fun a b h => PyValue.noConfusion h⟩,
    diff_grader_cases_rejects_non_pairs {} [PyValue.pyStr "not-a-pair"]
      ⟨.pyStr "not-a-pair", by simp, fun a b h => PyValue.noConfusion h⟩⟩

/-- Claim C5 counterexample: index construction is tolerant of duplicate
logical names (section 4.1), so from_path succeeds on a tree registering
two files under Tools.Util; that name is in file_names(), yet lookup of it
fails — with the deferred IndexError, not NotFound — refuting both that
every listed name resolves and that lookup fails only with NotFound for
names outside the set. -/
theorem project_file_names_resolve_counterexample :
    Project.from_path dupFs "/dup" = .ok dupProject ∧
    "Tools.Util" ∈ dupProject.file_names ∧
    dupProject.lookup "Tools.Util" =
      .error (.indexErr "Duplicate logical name Tools.Util in index") := by
  decide

/-- Claim C5 (amended): for every Project successfully constructed via
from_path whose indexed files have pairwise-distinct logical names,
file_names() has set semantics (no duplicate logical names) and every name
it contains resolves via lookup, while lookup fails with NotFound exactly
for the names not in the set. -/
theorem project_file_names_resolve (fs : FileSystem) (root : String) (p : Project)
    (h : Project.from_path fs root = .ok p)
    (hunique : (p.index.map SourceFile.logicalName).Nodup) :
    p.file_names.Nodup ∧
    (∀ n ∈ p.file_names, ∃ f, p.lookup n = .ok f) ∧
    (∀ n, n ∉ p.file_names → ∃ msg, p.lookup n = .error (.notFound msg)) := by
  refine ⟨dedupNames_nodup _ [], ?_, ?_⟩
  · intro n hn
    exact lookup_ok_of_unique_mem p n hunique hn
  · intro n hn
    exact ⟨_, lookup_notFound_of_not_mem p n hn⟩

/-- Claim C5 witness: the demo project is built by from_path, its logical
names are pairwise distinct, and its names resolve. -/
theorem project_file_names_resolve_witness :
    (Project.from_path demoFs "/proj" = .ok demoProject ∧
     (demoProject.index.map SourceFile.logicalName).Nodup) ∧
    (demoProject.file_names.Nodup ∧
     (∀ n ∈ demoProject.file_names, ∃ f, demoProject.lookup n = .ok f) ∧
     (∀ n, n ∉ demoProject.file_names →
        ∃ msg, demoProject.lookup n = .error (.notFound msg))) :=
  ⟨⟨by decide, by decide⟩,
    project_file_names_resolve demoFs "/proj" demoProject (by decide) (by decide)⟩

/-- Claim C2: for every DiffGrader run over a list of (input, expected)
cases, a case passes exactly when the expected value is a literal prefix
of the captured stdout, with case folding applied to the comparison when
and only when the ignore_case flag is set, and the returned grade equals
out_of multiplied by the number of passing cases divided by the total
number of cases. -/
theorem diff_grader_prefix_scoring (p : Project) (entry req : String) (outOf : Rat)
    (ic : Bool) (cs : List (String × String)) (rt : Runtime)
    (htool : rt.toolchainAvailable = true) (hcomp : rt.compileOk = true)
    (hne : cs ≠ []) :
    ∃ r : GradeResult,
      DiffGrader.run
        { project? := some p, file? := some entry, req_name? := some req,
          out_of? := some outOf, ignore_case? := ic, cases? := some cs } rt = .ok r ∧
      r.out_of = outOf ∧
      (∀ c ∈ cs, diffCasePasses rt entry ic c =
        ((if ic then String.mk (c.2.data.map Char.toLower) else c.2).data.isPrefixOf
          (if ic then String.mk ((rt.exec entry c.1).stdout.data.map Char.toLower)
           else (rt.exec entry c.1).stdout).data)) ∧
      r.grade = outOf *
        (cs.countP fun c =>
          ((if ic then String.mk (c.2.data.map Char.toLower) else c.2).data.isPrefixOf
            (if ic then String.mk ((rt.exec entry c.1).stdout.data.map Char.toLower)
             else (rt.exec entry c.1).stdout).data)) / cs.length := by
  refine ⟨{ grade := outOf * (cs.countP (diffCasePasses rt entry ic)) / cs.length,
            out_of := outOf, req_name := req, reason := "", prompt := none },
          ?_, rfl, fun c _ => rfl, rfl⟩
  simp only [DiffGrader.run, requiredField, bind, Except.bind, htool, hcomp, if_true]

/-- Claim C2 witness: the example's ignore-case banner scenario passes the
toolchain and compile checks and produces the claimed grade formula. -/
theorem diff_grader_prefix_scoring_witness :
    (demoRuntime.toolchainAvailable = true ∧ demoRuntime.compileOk = true ∧
      ([("", "===== Initial Empty List =====")] : List (String × String)) ≠ []) ∧
    (∃ r : GradeResult,
      DiffGrader.run
        { project? := some demoProject, file? := some "Application.Main",
          req_name? := some "banner", out_of? := some 5, ignore_case? := true,
          cases? := some [("", "===== Initial Empty List =====")] } demoRuntime = .ok r ∧
      r.out_of = 5 ∧
      (∀ c ∈ ([("", "===== Initial Empty List =====")] : List (String × String)),
        diffCasePasses demoRuntime "Application.Main" true c =
        ((if true then String.mk (c.2.data.map Char.toLower) else c.2).data.isPrefixOf
          (if true then
            String.mk ((demoRuntime.exec "Application.Main" c.1).stdout.data.map Char.toLower)
           else (demoRuntime.exec "Application.Main" c.1).stdout).data)) ∧
      r.grade = 5 *
        (([("", "===== Initial Empty List =====")] : List (String × String)).countP fun c =>
          ((if true then String.mk (c.2.data.map Char.toLower) else c.2).data.isPrefixOf
            (if true then
              String.mk ((demoRuntime.exec "Application.Main" c.1).stdout.data.map Char.toLower)
             else (demoRuntime.exec "Application.Main" c.1).stdout).data)) /
        ([("", "===== Initial Empty List =====")] : List (String × String)).length) :=
  ⟨⟨rfl, rfl, by decide⟩,
    diff_grader_prefix_scoring demoProject "Application.Main" "banner" 5 true
      [("", "===== Initial Empty List =====")] demoRuntime rfl rfl (by decide)⟩

/-- Claim C4: for every DiffGrader or ByUnitTestGrader run on a host where
the required toolchain cannot be located, run() fails with the distinct
RuntimeUnavailable error variant, propagating to the caller as a catchable
condition rather than a degraded GradeResult or a generic crash. -/
theorem toolchain_missing_runtime_unavailable (p : Project) (entry req req2 : String)
    (outOf outOf2 : Rat) (ic : Bool) (cs : List (String × String)) (tfs : List String)
    (exp : Option (List String)) (rt : Runtime)
    (h : rt.toolchainAvailable = false) :
    (∃ m, DiffGrader.run
        { project? := some p, file? := some entry, req_name? := some req,
          out_of? := some outOf, ignore_case? := ic, cases? := some cs } rt =
      .error (.runtimeUnavailable m)) ∧
    (∃ m, ByUnitTestGrader.run
        { project? := some p, test_files? := some tfs, expected_tests? := exp,
          req_name? := some req2, out_of? := some outOf2 } rt =
      .error (.runtimeUnavailable m)) := by
  constructor
  · exact ⟨"The required toolchain could not be located on the host",
      by simp only [DiffGrader.run, requiredField, bind, Except.bind, h,
        Bool.false_eq_true, if_false]⟩
  · exact ⟨"The required toolchain could not be located on the host",
      by simp only [ByUnitTestGrader.run, requiredField, bind, Except.bind,
        ProcessRunner.runEntry, h, Bool.false_eq_true, if_false]⟩

/-- Claim C4 witness: on the bare runtime both graders surface
RuntimeUnavailable. -/
theorem toolchain_missing_runtime_unavailable_witness :
    (bareRuntime.toolchainAvailable = false) ∧
    ((∃ m, DiffGrader.run
        { project? := some demoProject, file? := some "Application.Main",
          req_name? := some "banner", out_of? := some 5, ignore_case? := true,
          cases? := some [("", "===== Initial Empty List =====")] } bareRuntime =
      .error (.runtimeUnavailable m)) ∧
    (∃ m, ByUnitTestGrader.run
        { project? := some demoProject, test_files? := some ["DataStructures.ArrayListTest"],
          expected_tests? := some ["testClear"], req_name? := some "unit tests",
          out_of? := some 10 } bareRuntime =
      .error (.runtimeUnavailable m))) :=
  ⟨rfl,
    toolchain_missing_runtime_unavailable demoProject "Application.Main" "banner"
      "unit tests" 5 10 true [("", "===== Initial Empty List =====")]
      ["DataStructures.ArrayListTest"] (some ["testClear"]) bareRuntime rfl⟩

/-- Claim C6: for every QueryGrader whose target file exists in the
project, run() evaluates the predicate and returns grade out_of exactly
when the MatchPolicy is satisfied by the match set and 0 otherwise; under
the at-least-one policy with a match present, grade equals out_of and the
reason is the configured explanation; no intermediate partial-credit grade
is produced. -/
theorem query_grader_policy_scoring (p : Project) (file req rsn : String)
    (outOf : Rat) (pred : QueryPredicate) (pol : MatchPolicy) (sf : SourceFile)
    (hfd : p.lookup file = .ok sf) :
    ∃ r : GradeResult,
      QueryGrader.run
        { project? := some p, file? := some file, req_name? := some req,
          out_of? := some outOf, reason? := some rsn, predicate? := some pred,
          policy? := some pol } = .ok r ∧
      r.out_of = outOf ∧
      r.grade =
        (if pol.satisfied (QueryEngine.matches sf.model pred).length then outOf else 0) ∧
      (r.grade = 0 ∨ r.grade = outOf) ∧
      ((pol = .atLeastOne ∧ (QueryEngine.matches sf.model pred).length ≠ 0) →
        (r.grade = outOf ∧ r.reason = rsn)) := by
  cases hs : pol.satisfied (QueryEngine.matches sf.model pred).length with
  | true =>
    refine ⟨{ grade := outOf, out_of := outOf, req_name := req, reason := rsn,
              prompt := none }, ?_, rfl, by simp [hs], Or.inr rfl, fun _ => ⟨rfl, rfl⟩⟩
    simp only [QueryGrader.run, requiredField, bind, Except.bind, hfd, hs, if_true,
      Option.getD_some]
  | false =>
    refine ⟨{ grade := 0, out_of := outOf, req_name := req, reason := rsn,
              prompt := none }, ?_, rfl, by simp [hs], Or.inl rfl, ?_⟩
    · simp only [QueryGrader.run, requiredField, bind, Except.bind, hfd, hs,
        Bool.false_eq_true, if_false, Option.getD_some]
    · rintro ⟨rfl, hlen⟩
      exact absurd (by simpa [MatchPolicy.satisfied] using hs) hlen

/-- Claim C6 witness: the ArrayList file is present, invokes clear, and
the at-least-one query grader awards full credit with the configured
reason. -/
theorem query_grader_policy_scoring_witness :
    (demoProject.lookup "DataStructures.ArrayList" = .ok demoArrayListFile) ∧
    (∃ r : GradeResult,
      QueryGrader.run
        { project? := some demoProject, file? := some "DataStructures.ArrayList",
          req_name? := some "clear method present", out_of? := some 5,
          reason? := some "clear() should reset the list",
          predicate? := some (.methodInvocationsWithName "clear"),
          policy? := some .atLeastOne } = .ok r ∧
      r.out_of = 5 ∧
      r.grade =
        (if MatchPolicy.atLeastOne.satisfied
            (QueryEngine.matches demoArrayListFile.model
              (.methodInvocationsWithName "clear")).length then (5 : Rat) else 0) ∧
      (r.grade = 0 ∨ r.grade = 5) ∧
      ((MatchPolicy.atLeastOne = .atLeastOne ∧
          (QueryEngine.matches demoArrayListFile.model
            (.methodInvocationsWithName "clear")).length ≠ 0) →
        (r.grade = 5 ∧ r.reason = "clear() should reset the list"))) :=
  ⟨by decide,
    query_grader_policy_scoring demoProject "DataStructures.ArrayList"
      "clear method present" "clear() should reset the list" 5
      (.methodInvocationsWithName "clear") .atLeastOne demoArrayListFile (by decide)⟩

/-- Claim C7: every GradeResult serializes to a record with fields grade
(number), out_of (number), reason (string, possibly empty), and an
optional prompt payload that is a JSON array of message objects each
having at least a content field. -/
theorem grade_result_serialized_shape (r : GradeResult) :
    (r.serialize).getField "grade" = some (.num r.grade) ∧
    (r.serialize).getField "out_of" = some (.num r.out_of) ∧
    (r.serialize).getField "reason" = some (.str r.reason) ∧
    (r.prompt = none → (r.serialize).getField "prompt" = none) ∧
    (∀ msgs, r.prompt = some msgs →
      ∃ elems, (r.serialize).getField "prompt" = some (.arr elems) ∧
        elems.length = msgs.length ∧
        ∀ j ∈ elems, ∃ s, j.getField "content" = some (.str s)) := by
  obtain ⟨grade, outOf, req, reason, prompt⟩ := r
  cases prompt with
  | none =>
    exact ⟨rfl, rfl, rfl, fun _ => rfl, fun msgs hmsgs => Option.noConfusion hmsgs⟩
  | some msgs =>
    refine ⟨rfl, rfl, rfl, fun hc => Option.noConfusion hc, ?_⟩
    intro msgs2 hmsgs
    injection hmsgs with he
    subst he
    refine ⟨msgs.map Message.toJson, rfl, by simp, ?_⟩
    intro j hj
    rcases List.mem_map.mp hj with ⟨m, _, rfl⟩
    exact ⟨m.content, rfl⟩

/-- Claim C7 witness: the shape holds at a concrete GradeResult carrying a
prompt transcript. -/
theorem grade_result_serialized_shape_witness :
    (GradeResult.serialize
        { grade := 0, out_of := 1, req_name := "missing file",
          reason := "File Missing could not be found in the project",
          prompt := some [⟨"user", "File Missing could not be found in the project"⟩]
        }).getField "grade" = some (.num 0) ∧
    (GradeResult.serialize
        { grade := 0, out_of := 1, req_name := "missing file",
          reason := "File Missing could not be found in the project",
          prompt := some [⟨"user", "File Missing could not be found in the project"⟩]
        }).getField "out_of" = some (.num 1) ∧
    (GradeResult.serialize
        { grade := 0, out_of := 1, req_name := "missing file",
          reason := "File Missing could not be found in the project",
          prompt := some [⟨"user", "File Missing could not be found in the project"⟩]
        }).getField "reason" =
      some (.str "File Missing could not be found in the project") ∧
    (∃ elems,
      (GradeResult.serialize
          { grade := 0, out_of := 1, req_name := "missing file",
            reason := "File Missing could not be found in the project",
            prompt := some [⟨"user", "File Missing could not be found in the project"⟩]
          }).getField "prompt" = some (.arr elems) ∧
      ∀ j ∈ elems, ∃ s, j.getField "content" = some (.str s)) := by
  have h := grade_result_serialized_shape
    { grade := 0, out_of := 1, req_name := "missing file",
      reason := "File Missing could not be found in the project",
      prompt := some [⟨"user", "File Missing could not be found in the project"⟩] }
  refine ⟨h.1, h.2.1, h.2.2.1, ?_⟩
  rcases h.2.2.2.2 _ rfl with ⟨elems, he, _, hc⟩
  exact ⟨elems, he, hc⟩

/-- Claim C8: for every grader variant and every builder setter, calling
the setter returns a grader of the same type that differs only in the
field the setter sets, so arbitrary chains of setters construct
successfully without executing anything; only the terminal run() call
executes. -/
theorem builder_setters_chain :
    (∀ (g : ByUnitTestGrader) (p : Project) (ts es : List String) (o : Rat) (r : String),
      ((((g.project p).test_files ts).expected_tests es).out_of o).req_name r =
        { project? := some p, test_files? := some ts, expected_tests? := some es,
          out_of? := some o, req_name? := some r }) ∧
    (∀ (g : DiffGrader) (p : Project) (f r : String) (o : Rat) (b : Bool),
      ((((g.project p).file f).req_name r).out_of o).ignore_case b =
        { project? := some p, file? := some f, req_name? := some r, out_of? := some o,
          ignore_case? := b, cases? := g.cases? }) ∧
    (∀ (g : DiffGrader) (ps : List (String × String)),
      g.cases (ps.map fun pr => PyValue.pySeq [.pyStr pr.1, .pyStr pr.2]) =
        .ok { g with cases? := some ps }) ∧
    (∀ (g : QueryGrader) (p : Project) (f r rsn nm : String) (o : Rat),
      ((((((g.project p).file f).req_name r).out_of o).reason
          rsn).method_invocations_with_name nm).must_match_at_least_once =
        { project? := some p, file? := some f, req_name? := some r, out_of? := some o,
          reason? := some rsn, predicate? := some (.methodInvocationsWithName nm),
          policy? := some .atLeastOne }) := by
  refine ⟨fun g p ts es o r => rfl, fun g p f r o b => rfl, ?_, fun g p f r rsn nm o => rfl⟩
  intro g ps
  simp [DiffGrader.cases, decomposeAll_pairs]

/-- Claim C9: constructing a Project from the same path twice and running
the identical grader configuration against each yields GradeResults with
identical grade, out_of and reason (the program under test is
deterministic: the Runtime maps entry point and stdin to one fixed
ExecutionResult). -/
theorem project_rebuild_determinism (fs : FileSystem) (root : String) (p1 p2 : Project)
    (s : GraderSpec) (rt : Runtime)
    (h1 : Project.from_path fs root = .ok p1)
    (h2 : Project.from_path fs root = .ok p2) :
    ((runSpec s p1 rt).toOption.map GradeResult.grade =
      (runSpec s p2 rt).toOption.map GradeResult.grade) ∧
    ((runSpec s p1 rt).toOption.map GradeResult.out_of =
      (runSpec s p2 rt).toOption.map GradeResult.out_of) ∧
    ((runSpec s p1 rt).toOption.map GradeResult.reason =
      (runSpec s p2 rt).toOption.map GradeResult.reason) := by
  rw [h1] at h2
  injection h2 with hp
  subst hp
  exact ⟨rfl, rfl, rfl⟩

/-- Claim C9 witness: two from_path constructions of the demo project give
identical query-grader results. -/
theorem project_rebuild_determinism_witness :
    (Project.from_path demoFs "/proj" = .ok demoProject) ∧
    ((runSpec (.querySpec "DataStructures.ArrayList" "q" "r" 5
        (.methodInvocationsWithName "clear") .atLeastOne) demoProject
        demoRuntime).toOption.map GradeResult.grade =
      (runSpec (.querySpec "DataStructures.ArrayList" "q" "r" 5
        (.methodInvocationsWithName "clear") .atLeastOne) demoProject
        demoRuntime).toOption.map GradeResult.grade) :=
  ⟨by decide,
    (project_rebuild_determinism demoFs "/proj" demoProject demoProject
      (.querySpec "DataStructures.ArrayList" "q" "r" 5
        (.methodInvocationsWithName "clear") .atLeastOne) demoRuntime
      (by decide) (by decide)).1⟩

/-- Claim C10: the public surface of the umm module includes Project,
DiffGrader, ByUnitTestGrader, QueryGrader and GradeResult, additionally
exports the error types UmmError and UmmRuntimeError, and none of the
exported names is underscore-prefixed. -/
theorem module_surface_exports :
    "Project" ∈ moduleExports ∧ "DiffGrader" ∈ moduleExports ∧
    "ByUnitTestGrader" ∈ moduleExports ∧ "QueryGrader" ∈ moduleExports ∧
    "GradeResult" ∈ moduleExports ∧ "UmmError" ∈ moduleExports ∧
    "UmmRuntimeError" ∈ moduleExports ∧
    ∀ n ∈ moduleExports, ("_".data.isPrefixOf n.data) = false := by
  decide

end Umm
